import Mathlib

/-!
# Verification of the Weather aggregation/comparison service

Shallow embedding of the arithmetic and control-flow core of the Weather
repository (three provider adapters, a canonical weather record, a
cross-source statistics comparator, a query-log analytics module, a
per-provider circuit breaker and a UK-postcode location cleaner), together
with theorems settling the frozen claims about it.

JavaScript numbers are embedded as exact rationals `ℚ`; `Math.round` is
`⌊x + 1/2⌋` (JavaScript rounds halves towards +∞), and
`Math.round(x*100)/100` — the pervasive 2-decimal rounding of the code —
is `round2`.  `Math.sqrt` is embedded as `Real.sqrt` on the corresponding
real number.  Absent JSON fields are `Option.none`.
-/

namespace Weather

/-- JavaScript `Math.round`: nearest integer, halves towards +∞. -/
def jsRound (x : ℚ) : ℤ := ⌊x + 1/2⌋

/-- `Math.round(x * 100) / 100` — round to 2 decimal places. -/
def round2 (x : ℚ) : ℚ := (jsRound (x * 100) : ℚ) / 100

/-- `Math.round` on a real argument (used after `Math.sqrt`). -/
noncomputable def jsRoundR (x : ℝ) : ℤ := ⌊x + 1/2⌋

/-- 2-decimal rounding on a real argument. -/
noncomputable def round2R (x : ℝ) : ℝ := (jsRoundR (x * 100) : ℝ) / 100

/-! ## Canonical record standardization (src/models/Weather.js)

`Weather.getStandardizedCurrent` (lines 25–66) passes every numeric field
through the JavaScript pattern `value || null` (with optional chaining for
nested groups).  For a numeric field this maps an absent value to `null`
and a present value `v` to `v` — except that the falsy number `0` is also
mapped to `null`.  `jsNumOrNull` is that pattern on an optional rational. -/

/-- The JavaScript `x || null` idiom applied to an (optional) numeric
field: absent stays absent, and the falsy value `0` collapses to absent. -/
def jsNumOrNull (v : Option ℚ) : Option ℚ :=
  match v with
  | none => none
  | some x => if x = 0 then none else some x

/-- The `x || default` idiom on an (optional) string field: absent and
the falsy empty string both become the default. -/
def jsStrOr (v : Option String) (d : String) : String :=
  match v with
  | none => d
  | some s => if s = "" then d else s

/-- Raw `current.temperature` group (fields may be absent). -/
structure RawTemperature where
  celsius : Option ℚ
  fahrenheit : Option ℚ
  feelsLikeCelsius : Option ℚ
  feelsLikeFahrenheit : Option ℚ
deriving DecidableEq

/-- Raw `current` object as held by a `Weather` instance: each numeric
leaf is optional (`undefined` ⇝ `none`).  String-valued leaves
(`weather.main`, `weather.description`, `directionText`) and the
`airQuality` object are not needed by any claim and are omitted. -/
structure RawCurrent where
  temperature : Option RawTemperature
  humidity : Option ℚ
  pressureHPa : Option ℚ
  pressureInHg : Option ℚ
  visibilityKm : Option ℚ
  visibilityMiles : Option ℚ
  windMps : Option ℚ
  windMph : Option ℚ
  windKmh : Option ℚ
  windDirection : Option ℚ
  windGust : Option ℚ
  clouds : Option ℚ
  uv : Option ℚ
deriving DecidableEq

/-- The numeric fields of the record produced by
`Weather.getStandardizedCurrent` (src/models/Weather.js lines 25–66).
`none` is the explicit absent marker (`null`). -/
structure StdCurrent where
  temperatureCelsius : Option ℚ
  temperatureFahrenheit : Option ℚ
  feelsLikeCelsius : Option ℚ
  feelsLikeFahrenheit : Option ℚ
  humidity : Option ℚ
  pressureHPa : Option ℚ
  pressureInHg : Option ℚ
  visibilityKm : Option ℚ
  visibilityMiles : Option ℚ
  windMps : Option ℚ
  windMph : Option ℚ
  windKmh : Option ℚ
  windDirection : Option ℚ
  windGust : Option ℚ
  clouds : Option ℚ
  uv : Option ℚ
deriving DecidableEq

/-- `Weather.getStandardizedCurrent` (src/models/Weather.js lines 25–66),
restricted to its numeric fields.  Optional chaining through an absent
group (`current.temperature?.celsius`) yields `undefined`, and every leaf
then goes through `|| null` (`jsNumOrNull`). -/
def getStandardizedCurrent (c : RawCurrent) : StdCurrent where
  temperatureCelsius := jsNumOrNull (c.temperature.bind (·.celsius))
  temperatureFahrenheit := jsNumOrNull (c.temperature.bind (·.fahrenheit))
  feelsLikeCelsius := jsNumOrNull (c.temperature.bind (·.feelsLikeCelsius))
  feelsLikeFahrenheit := jsNumOrNull (c.temperature.bind (·.feelsLikeFahrenheit))
  humidity := jsNumOrNull c.humidity
  pressureHPa := jsNumOrNull c.pressureHPa
  pressureInHg := jsNumOrNull c.pressureInHg
  visibilityKm := jsNumOrNull c.visibilityKm
  visibilityMiles := jsNumOrNull c.visibilityMiles
  windMps := jsNumOrNull c.windMps
  windMph := jsNumOrNull c.windMph
  windKmh := jsNumOrNull c.windKmh
  windDirection := jsNumOrNull c.windDirection
  windGust := jsNumOrNull c.windGust
  clouds := jsNumOrNull c.clouds
  uv := jsNumOrNull c.uv

/-! ## The comparator (src/controllers/comparisonController.js) -/

/-- The four metrics `compareMetric` can be asked about. -/
inductive Metric | temperature | humidity | pressure | windSpeed
deriving DecidableEq

/-- The `switch (metric)` of `compareMetric`
(src/controllers/comparisonController.js lines 262–273): which
standardized field feeds each metric. -/
def metricValue (c : StdCurrent) : Metric → Option ℚ
  | .temperature => c.temperatureCelsius
  | .humidity => c.humidity
  | .pressure => c.pressureHPa
  | .windSpeed => c.windMph

/-- `values = weatherObjects.map(...).filter(v => v !== null && v !== undefined)`
(lines 260–274): extract the metric from every record's standardized
current data, skipping absent values and preserving order. -/
def extractValues (records : List RawCurrent) (m : Metric) : List ℚ :=
  (records.map (fun r => metricValue (getStandardizedCurrent r) m)).filterMap id

/-- `Math.min(...values)` over a non-empty argument list. -/
def listMin : List ℚ → ℚ
  | [] => 0
  | v :: vs => vs.foldl min v

/-- `Math.max(...values)` over a non-empty argument list. -/
def listMax : List ℚ → ℚ
  | [] => 0
  | v :: vs => vs.foldl max v

/-- `values.reduce((sum, val) => sum + val, 0)` (line 280). -/
def jsSum (vs : List ℚ) : ℚ := vs.foldl (· + ·) 0

/-- The internal, full-precision mean of `compareMetric` (line 280):
`values.reduce((sum, val) => sum + val, 0) / values.length`. -/
def meanExact (vs : List ℚ) : ℚ := jsSum vs / vs.length

/-- The internal, full-precision variance of `compareMetric` (line 281):
`values.reduce((sum, val) => sum + Math.pow(val - mean, 2), 0) / values.length`,
computed from the unrounded mean. -/
def varianceExact (vs : List ℚ) : ℚ :=
  (vs.foldl (fun s v => s + (v - meanExact vs) ^ 2) 0) / vs.length

/-- `ComparisonController.calculateMedian`
(src/controllers/comparisonController.js lines 455–465): sort ascending,
take the middle element for odd length; for even length, the average of
the two middle elements passed through `Math.round` — i.e. rounded to the
nearest whole number.  Empty input returns 0.  The JavaScript
`[...values].sort((a, b) => a - b)` is embedded as an ascending sort. -/
def calculateMedian (vs : List ℚ) : ℚ :=
  if vs.length = 0 then 0
  else
    let sorted := vs.insertionSort (· ≤ ·)
    let middle := sorted.length / 2
    if sorted.length % 2 = 0 then
      (jsRound ((sorted.getD (middle - 1) 0 + sorted.getD middle 0) / 2) : ℚ)
    else sorted.getD middle 0

/-- The fields of the object returned by `compareMetric`
(src/controllers/comparisonController.js lines 284–295) that are rational
numbers.  `standardDeviation` (an irrational square root) and `agreement`
(defined from it) are embedded separately as `standardDeviationR` and
`agreementHolds` on the same value list. -/
structure MetricStats where
  values : List ℚ
  count : ℕ
  min : ℚ
  max : ℚ
  mean : ℚ
  median : ℚ
  variance : ℚ
  range : ℚ
deriving DecidableEq

/-- `ComparisonController.compareMetric`
(src/controllers/comparisonController.js lines 259–296), rational part:
`null` when no usable values, otherwise the statistics object whose
`mean` and `variance` fields are the internal full-precision values
rounded to 2 decimal places. -/
def compareMetricStats (records : List RawCurrent) (m : Metric) : Option MetricStats :=
  let values := extractValues records m
  if values.length = 0 then none
  else some
    { values := values
      count := values.length
      min := listMin values
      max := listMax values
      mean := round2 (meanExact values)
      median := calculateMedian values
      variance := round2 (varianceExact values)
      range := listMax values - listMin values }

/-- `standardDeviation = Math.sqrt(variance)` (line 282): the internal,
unrounded standard deviation of the extracted values. -/
noncomputable def stdDevExact (vs : List ℚ) : ℝ :=
  Real.sqrt ((varianceExact vs : ℚ) : ℝ)

/-- The `standardDeviation` field returned by `compareMetric` (line 291):
the internal standard deviation rounded to 2 decimal places. -/
noncomputable def stdDevRounded (vs : List ℚ) : ℝ := round2R (stdDevExact vs)

/-- The `agreement` field (line 294):
`standardDeviation < (mean * 0.1)`, computed from the *unrounded*
standard deviation and the *unrounded* mean. -/
def agreementHolds (vs : List ℚ) : Prop :=
  stdDevExact vs < ((meanExact vs : ℚ) : ℝ) * (1 / 10)

/-! ### Spec-side statistics definitions

These follow the words of the specification (§4.2), *not* the source, and
exist to be compared with the source-side definitions above. -/

/-- Spec: "mean = arithmetic mean". -/
def specMean (vs : List ℚ) : ℚ := vs.sum / vs.length

/-- Spec: "variance = population variance (divide by N, not N−1)". -/
def specPopVariance (vs : List ℚ) : ℚ :=
  ((vs.map (fun v => (v - specMean vs) ^ 2)).sum) / vs.length

/-- Spec: "median via the conventional even/odd-length rule (average of
two middle elements for even N)", at full precision. -/
def specMedian (vs : List ℚ) : ℚ :=
  let sorted := vs.insertionSort (· ≤ ·)
  let middle := sorted.length / 2
  if sorted.length % 2 = 0 then (sorted.getD (middle - 1) 0 + sorted.getD middle 0) / 2
  else sorted.getD middle 0

/-! ### Record constructors used in concrete scenarios -/

/-- A raw current-weather object with every field absent. -/
def emptyRaw : RawCurrent where
  temperature := none
  humidity := none
  pressureHPa := none
  pressureInHg := none
  visibilityKm := none
  visibilityMiles := none
  windMps := none
  windMph := none
  windKmh := none
  windDirection := none
  windGust := none
  clouds := none
  uv := none

/-- A raw record carrying only a celsius temperature. -/
def rawWithTemperature (q : ℚ) : RawCurrent :=
  { emptyRaw with
    temperature := some
      { celsius := some q
        fahrenheit := none
        feelsLikeCelsius := none
        feelsLikeFahrenheit := none } }

/-- A raw record carrying only a wind speed in mph. -/
def rawWithWindMph (q : ℚ) : RawCurrent :=
  { emptyRaw with windMph := some q }

/-- The records of the spec's comparison scenario: celsius values
10, 12 and 14 from three sources. -/
def scenarioRecords : List RawCurrent :=
  [rawWithTemperature 10, rawWithTemperature 12, rawWithTemperature 14]

/-- Two records whose wind speeds (mph) are the non-integer values
10.2 and 10.4. -/
def windPairRecords : List RawCurrent :=
  [rawWithWindMph (51/5), rawWithWindMph (52/5)]

/-- Two records with celsius values 10 and 11 (an even-count data set
whose conventional median, 10.5, is not a whole number). -/
def medianPairRecords : List RawCurrent :=
  [rawWithTemperature 10, rawWithTemperature 11]

/-- A raw record whose humidity, UV index and wind direction carry the
genuine value 0. -/
def zeroFieldsRaw : RawCurrent :=
  { emptyRaw with humidity := some 0, uv := some 0, windDirection := some 0 }

/-- A raw record carrying only a humidity value. -/
def rawWithHumidity (q : ℚ) : RawCurrent :=
  { emptyRaw with humidity := some q }

/-! ## Provider adapter wind-speed normalization

Each adapter owns its unit conversions.  Only the wind-speed block of
each `transformCurrentWeatherData` is needed by the claims. -/

/-- The `wind.speed` object of a normalized current-weather record. -/
structure WindSpeeds where
  mps : ℚ
  mph : ℚ
  kmh : ℚ
deriving DecidableEq

/-- OpenWeatherMap adapter (src/unnamed/part_002, lines 166–177 of
`transformCurrentWeatherData`): the raw provider value `data.wind.speed`
is in m/s (metric units); mph and km/h are derived from it and rounded
to 2 decimal places:
`mph = Math.round((speed * 2.237) * 100) / 100`,
`kmh = Math.round((speed * 3.6) * 100) / 100`. -/
def owmWindSpeed (speed : ℚ) : WindSpeeds where
  mps := speed
  mph := round2 (speed * 2.237)
  kmh := round2 (speed * 3.6)

/-- WeatherAPI adapter (src/Weather/services/weatherApiService.js lines
169–181): raw values `wind_mph` and `wind_kph` are passed through and
`mps = Math.round((wind_kph / 3.6) * 100) / 100` is derived. -/
def weatherApiWindSpeed (wind_mph wind_kph : ℚ) : WindSpeeds where
  mph := wind_mph
  kmh := wind_kph
  mps := round2 (wind_kph / 3.6)

/-- AccuWeather adapter (src/unnamed/part_000, lines 223–231 of
`transformCurrentWeatherData`): `wind.Speed.Metric.Value` (km/h) and
`wind.Speed.Imperial.Value` (mph) pass through;
`mps = Math.round((wind.Speed.Metric.Value / 3.6) * 100) / 100`. -/
def accuWindSpeed (speedKmh speedMph : ℚ) : WindSpeeds where
  kmh := speedKmh
  mph := speedMph
  mps := round2 (speedKmh / 3.6)

/-! ## Query-log analytics (src/models/QueryLog.js) -/

/-- A query-log entry, restricted to the fields `calculateStats` reads:
`responseTime` (absent treated as 0 via `log.responseTime || 0`) and
`status`. -/
structure LogEntry where
  responseTime : Option ℚ
  status : String
deriving DecidableEq

/-- `log.responseTime || 0`: absent (and the falsy 0 itself) become 0. -/
def rtOrZero (l : LogEntry) : ℚ :=
  match l.responseTime with
  | none => 0
  | some t => t

/-- The object returned by `QueryLog.calculateStats`
(src/models/QueryLog.js lines 190–224). -/
structure QueryStats where
  total : ℕ
  successful : ℕ
  failed : ℕ
  successRate : ℤ
  averageResponseTime : ℚ
  medianResponseTime : ℚ
  minResponseTime : ℚ
  maxResponseTime : ℚ
deriving DecidableEq

/-- `QueryLog.calculateStats` (src/models/QueryLog.js lines 190–224):
all-zero stats on an empty list; otherwise `responseTimes` is the list
of response times filtered to `> 0` (cache hits are logged with 0) and
sorted ascending, `successful`/`failed` count entries whose status is
exactly `'success'` / `'error'`, `successRate` is
`Math.round((successful / total) * 100)`, and the latency statistics are
computed over `responseTimes` only (0 when it is empty).
`QueryLog.calculateMedian` (lines 265–275) is the same function as the
comparison controller's `calculateMedian`, embedded once above. -/
def calculateStats (logs : List LogEntry) : QueryStats :=
  if logs.length = 0 then
    { total := 0, successful := 0, failed := 0, successRate := 0
      averageResponseTime := 0, medianResponseTime := 0
      minResponseTime := 0, maxResponseTime := 0 }
  else
    let responseTimes :=
      ((logs.map rtOrZero).filter (fun t => 0 < t)).insertionSort (· ≤ ·)
    let successful := (logs.filter (fun l => l.status = "success")).length
    let failed := (logs.filter (fun l => l.status = "error")).length
    { total := logs.length
      successful := successful
      failed := failed
      successRate := jsRound ((successful : ℚ) / logs.length * 100)
      averageResponseTime :=
        if responseTimes.length = 0 then 0
        else (jsRound (jsSum responseTimes / responseTimes.length) : ℚ)
      medianResponseTime :=
        if responseTimes.length = 0 then 0 else calculateMedian responseTimes
      minResponseTime :=
        if responseTimes.length = 0 then 0 else listMin responseTimes
      maxResponseTime :=
        if responseTimes.length = 0 then 0 else listMax responseTimes }

/-- The spec's log scenario: response times [500, 600, 1000] with
statuses [success, success, error]. -/
def sampleLogs : List LogEntry :=
  [{ responseTime := some 500, status := "success" },
   { responseTime := some 600, status := "success" },
   { responseTime := some 1000, status := "error" }]

/-- A cache-hit entry: response time 0, status success. -/
def cacheHitEntry : LogEntry := { responseTime := some 0, status := "success" }

/-- An entry whose status is neither `'success'` nor `'error'` (the
`QueryLog` constructor defaults status to `'unknown'`). -/
def unknownEntry : LogEntry := { responseTime := some 700, status := "unknown" }

/-- Log list used to witness the status-counting claims: one success,
one error, one entry with another status. -/
def c10Logs : List LogEntry :=
  [{ responseTime := some 500, status := "success" },
   { responseTime := some 1000, status := "error" },
   unknownEntry]

/-! ## The aggregation fan-out
(`ComparisonController.compareCurrentWeather`,
src/controllers/comparisonController.js lines 10–93, and the analogous
`WeatherController.getAllCurrentWeather`, src/unnamed/part_004 lines
166–244) -/

/-- Location coordinates as validated by `Weather.hasValidLocation`:
each of `lat`/`lon` must be a number (`typeof ... === 'number'`). -/
structure Coordinates where
  lat : Option ℚ
  lon : Option ℚ
deriving DecidableEq

/-- The location part of a raw provider payload. -/
structure WLocation where
  name : String
  coordinates : Option Coordinates
deriving DecidableEq

/-- A raw provider payload as wrapped by `new Weather(data)`:
`location` and `current` both optional (the constructor defaults them to
`{}`, which fails the subsequent field checks exactly like absence). -/
structure WeatherData where
  location : Option WLocation
  current : Option RawCurrent
deriving DecidableEq

/-- `Weather.hasValidLocation` (src/models/Weather.js lines 151–157):
truthy name, a coordinates object, and numeric lat and lon. -/
def hasValidLocation (d : WeatherData) : Bool :=
  match d.location with
  | none => false
  | some loc =>
    !(loc.name = "") &&
      (match loc.coordinates with
       | none => false
       | some co => co.lat.isSome && co.lon.isSome)

/-- `Weather.hasValidCurrent` (src/models/Weather.js lines 159–163):
a temperature object with numeric celsius. -/
def hasValidCurrent (d : WeatherData) : Bool :=
  match d.current with
  | none => false
  | some cur =>
    match cur.temperature with
    | none => false
    | some t => t.celsius.isSome

/-- `Weather.isValid` (src/models/Weather.js lines 147–149). -/
def weatherIsValid (d : WeatherData) : Bool :=
  hasValidLocation d && hasValidCurrent d

/-- What one provider's `getCurrentWeather` call did, as observed by the
aggregation callback: the availability check failed, the call threw
(circuit open, transport error, upstream error — all surface as thrown
errors caught by the `catch`), or it returned a payload. -/
inductive FetchOutcome where
  | notAvailable
  | threw (msg : String)
  | fetched (data : WeatherData)
deriving DecidableEq

/-- A named provider together with its call outcome. -/
structure Provider where
  name : String
  outcome : FetchOutcome
deriving DecidableEq

/-- A provider contributes to `results` iff its call returned data that
passes `Weather.isValid`. -/
def providerSucceeds (p : Provider) : Bool :=
  match p.outcome with
  | .fetched d => weatherIsValid d
  | _ => false

/-- The error message recorded for a failing provider
(src/controllers/comparisonController.js lines 34–54): unavailability,
the thrown error's message, or `'Invalid weather data received'`. -/
def providerError (p : Provider) : Option String :=
  match p.outcome with
  | .notAvailable => some "Service not available (API key not configured)"
  | .threw msg => some msg
  | .fetched d =>
      if weatherIsValid d then none else some "Invalid weather data received"

/-- The `results` map built by the fan-out: one entry per provider whose
call returned valid data.  (`Promise.allSettled` writes entries keyed by
provider name; the map's key set is completion-order independent, so it
is embedded as an association list in provider order.) -/
def aggregateResults (ps : List Provider) : List (String × WeatherData) :=
  ps.filterMap (fun p =>
    match p.outcome with
    | .fetched d => if weatherIsValid d then some (p.name, d) else none
    | _ => none)

/-- The `errors` map built by the fan-out: one entry per provider whose
call failed, with its recorded message. -/
def aggregateErrors (ps : List Provider) : List (String × String) :=
  ps.filterMap (fun p => (providerError p).map (fun e => (p.name, e)))

/-- The two possible responses of `compareCurrentWeather` after the
fan-out settles (lines 62–92): HTTP 503 with the error map when no
provider succeeded, otherwise a success response carrying both maps. -/
inductive AggResponse where
  | serviceUnavailable (errors : List (String × String))
  | ok (results : List (String × WeatherData)) (errors : List (String × String))
deriving DecidableEq

/-- The aggregation endpoint: `Promise.allSettled` over the per-provider
callbacks (each with its own availability check and `try`/`catch`, so
the fan-out itself never raises), then the success-count branch. -/
def compareCurrentWeather (ps : List Provider) : AggResponse :=
  if (aggregateResults ps).length = 0 then .serviceUnavailable (aggregateErrors ps)
  else .ok (aggregateResults ps) (aggregateErrors ps)

/-- A payload that passes `Weather.isValid`. -/
def validLondonData : WeatherData where
  location := some
    { name := "London"
      coordinates := some { lat := some (515/10), lon := some (-13/100) } }
  current := some (rawWithTemperature 10)

/-- The spec's partial-failure scenario: three providers, the second of
which throws. -/
def partialFailureProviders : List Provider :=
  [{ name := "OpenWeatherMap", outcome := .fetched validLondonData },
   { name := "WeatherAPI", outcome := .threw "WeatherAPI error: timeout of 10000ms exceeded" },
   { name := "AccuWeather", outcome := .fetched validLondonData }]

/-! ## The per-provider circuit breaker
(src/unnamed/part_002 `OpenWeatherService.getCurrentWeather` lines
26–87; identical logic in src/Weather/services/weatherApiService.js
lines 26–91 and src/unnamed/part_000 lines 78–146) -/

/-- `this.circuitBreaker.state`. -/
inductive CBState where
  | closed
  | opened
  | halfOpen
deriving DecidableEq

/-- `this.circuitBreaker`: failure count, time of last failure
(`null` before any failure), state. -/
structure CircuitBreaker where
  failures : ℕ
  lastFailureTime : Option ℕ
  state : CBState
deriving DecidableEq

/-- The breaker as constructed: `{ failures: 0, lastFailureTime: null,
state: 'CLOSED' }`. -/
def initialBreaker : CircuitBreaker where
  failures := 0
  lastFailureTime := none
  state := .closed

/-- What one call through the breaker produced. -/
inductive CallOutcome where
  | circuitOpen
  | success
  | failure
deriving DecidableEq

/-- Observation of one `getCurrentWeather` call: the breaker afterwards,
the outcome, whether the transport layer was reached, and the breaker
state at the moment the attempt was made (`none` when the call was
rejected without an attempt). -/
structure CallResult where
  next : CircuitBreaker
  outcome : CallOutcome
  transportInvoked : Bool
  attemptState : Option CBState
deriving DecidableEq

/-- One call through the circuit breaker at time `now` (ms), with the
transport layer reporting success (`true`) or failure (`false`).
Mirrors the source: while OPEN and within 60000 ms of the last failure
the call throws immediately without touching the transport; past 60000
ms the state moves to HALF_OPEN and the call proceeds; a success resets
`failures` to 0 and the state to CLOSED (leaving `lastFailureTime`
untouched); a failure increments `failures`, stamps `lastFailureTime`,
and sets the state to OPEN once `failures >= 5`. -/
def breakerCall (b : CircuitBreaker) (now : ℕ) (transportSucceeds : Bool) :
    CallResult :=
  if b.state = .opened ∧ now - (b.lastFailureTime.getD 0) < 60000 then
    { next := b, outcome := .circuitOpen, transportInvoked := false
      attemptState := none }
  else
    let b1 := if b.state = .opened then { b with state := .halfOpen } else b
    if transportSucceeds then
      { next := { b1 with failures := 0, state := .closed }
        outcome := .success, transportInvoked := true
        attemptState := some b1.state }
    else
      { next :=
          { failures := b1.failures + 1
            lastFailureTime := some now
            state := if 5 ≤ b1.failures + 1 then .opened else b1.state }
        outcome := .failure, transportInvoked := true
        attemptState := some b1.state }

/-- Run a sequence of calls (time, transport outcome) through the
breaker, keeping only the evolving breaker state. -/
def runBreaker (b : CircuitBreaker) (calls : List (ℕ × Bool)) : CircuitBreaker :=
  calls.foldl (fun b c => (breakerCall b c.1 c.2).next) b

/-! ## UK postcode location cleaning
(`WeatherController.cleanLocation` and
`WeatherController.getNearbyCityForPostcode`, src/unnamed/part_004
lines 388–521; `ukConfig.postcodeRegex`, src/config/apis.js line 75) -/

/-- ASCII character classes used by the postcode pattern. -/
def isAsciiUpper (c : Char) : Bool := 'A' ≤ c && c ≤ 'Z'

def isAsciiLower (c : Char) : Bool := 'a' ≤ c && c ≤ 'z'

def isAsciiLetter (c : Char) : Bool := isAsciiUpper c || isAsciiLower c

def isAsciiDigit (c : Char) : Bool := '0' ≤ c && c ≤ '9'

/-- The class `[0-9R]` of the postcode pattern (case-insensitive). -/
def isDigitOrR (c : Char) : Bool := isAsciiDigit c || c = 'R' || c = 'r'

/-- The class `[0-9A-Z]` of the postcode pattern (case-insensitive). -/
def isAlnumAny (c : Char) : Bool := isAsciiDigit c || isAsciiLetter c

/-- The inward-code letter class `[ABD-HJLNP-UW-Z]`. -/
def finalLetterSet : List Char :=
  ['A', 'B', 'D', 'E', 'F', 'G', 'H', 'J', 'L', 'N',
   'P', 'Q', 'R', 'S', 'T', 'U', 'W', 'X', 'Y', 'Z']

def isFinalLetter (c : Char) : Bool := finalLetterSet.contains c.toUpper

/-- The tail of `ukConfig.postcodeRegex` after the leading letters:
`[0-9R][0-9A-Z]? [0-9][ABD-HJLNP-UW-Z]{2}$` (with the `i` flag).  The
two match arms are the two lengths the optional class produces; a
string whose optional position holds the space cannot also satisfy the
longer arm, matching the regex's backtracking behaviour. -/
def pcRest (cs : List Char) : Bool :=
  match cs with
  | c1 :: ' ' :: d :: a :: b :: [] =>
      isDigitOrR c1 && isAsciiDigit d && isFinalLetter a && isFinalLetter b
  | c1 :: c2 :: ' ' :: d :: a :: b :: [] =>
      isDigitOrR c1 && isAlnumAny c2 && isAsciiDigit d &&
        isFinalLetter a && isFinalLetter b
  | _ => false

/-- `ukConfig.postcodeRegex.test`:
`/^[A-Z]{1,2}[0-9R][0-9A-Z]? [0-9][ABD-HJLNP-UW-Z]{2}$/i`.  The greedy
`{1,2}` with backtracking is the disjunction of the one-letter and
two-letter alternatives. -/
def isUKPostcode (cs : List Char) : Bool :=
  match cs with
  | l1 :: rest =>
      isAsciiLetter l1 &&
        (pcRest rest ||
          (match rest with
           | l2 :: rest2 => isAsciiLetter l2 && pcRest rest2
           | [] => false))
  | [] => false

/-- The whitespace class for `trim`/`\s` (the ASCII members suffice for
location strings). -/
def isJsWs (c : Char) : Bool := c = ' ' || c = '\t' || c = '\n' || c = '\r'

/-- `location.trim()`. -/
def jsTrim (cs : List Char) : List Char :=
  ((cs.dropWhile isJsWs).reverse.dropWhile isJsWs).reverse

/-- `replace(/\s+/g, ' ')`, written with a "currently inside a
whitespace run" flag so the recursion is structural: the first
character of every maximal whitespace run becomes one space and the
rest of the run is dropped. -/
def collapseWsAux : Bool → List Char → List Char
  | _, [] => []
  | inWs, c :: rest =>
      if isJsWs c then
        if inWs then collapseWsAux true rest
        else ' ' :: collapseWsAux true rest
      else c :: collapseWsAux false rest

/-- `replace(/\s+/g, ' ')`: every run of whitespace becomes one space. -/
def collapseWs (cs : List Char) : List Char := collapseWsAux false cs

/-- `cleaned.slice(0, -3) + ' ' + cleaned.slice(-3)`. -/
def insertSpaceBefore3 (cs : List Char) : List Char :=
  cs.take (cs.length - 3) ++ ' ' :: cs.drop (cs.length - 3)

/-- The postcode-formatting block of `cleanLocation` (src/unnamed/part_004
lines 398–403): upper-case, collapse whitespace, and insert the space
before the final three characters when it is missing. -/
def formatPostcode (cs : List Char) : List Char :=
  let up := collapseWs (cs.map Char.toUpper)
  if 3 < up.length && !(up.contains ' ') then insertSpaceBefore3 up else up

/-- The `postcodeAreas` table of `getNearbyCityForPostcode`
(src/unnamed/part_004 lines 423–504), in source order.  The source
object literal repeats the key `'SY': 'Shrewsbury'`; the duplicate
carries the same value, so it is listed once. -/
def postcodeAreas : List (String × String) :=
  [("E", "London"), ("EC", "London"), ("N", "London"), ("NW", "London"),
   ("SE", "London"), ("SW", "London"), ("W", "London"), ("WC", "London"),
   ("B", "Birmingham"), ("M", "Manchester"), ("L", "Liverpool"),
   ("LS", "Leeds"), ("S", "Sheffield"), ("NG", "Nottingham"),
   ("LE", "Leicester"), ("CV", "Coventry"), ("DE", "Derby"),
   ("DN", "Doncaster"), ("HD", "Huddersfield"), ("HU", "Hull"),
   ("NE", "Newcastle"), ("SR", "Sunderland"), ("TS", "Middlesbrough"),
   ("YO", "York"), ("BD", "Bradford"), ("HG", "Harrogate"),
   ("WF", "Wakefield"), ("OL", "Oldham"), ("SK", "Stockport"),
   ("WA", "Warrington"), ("WN", "Wigan"), ("BL", "Bolton"),
   ("BB", "Blackburn"), ("PR", "Preston"), ("FY", "Blackpool"),
   ("LA", "Lancaster"), ("CA", "Carlisle"), ("DL", "Darlington"),
   ("DH", "Durham"), ("NR", "Norwich"), ("IP", "Ipswich"),
   ("CB", "Cambridge"), ("PE", "Peterborough"), ("NN", "Northampton"),
   ("MK", "Milton Keynes"), ("LU", "Luton"), ("AL", "St Albans"),
   ("HP", "Hemel Hempstead"), ("SL", "Slough"), ("RG", "Reading"),
   ("OX", "Oxford"), ("SN", "Swindon"), ("BA", "Bath"),
   ("BS", "Bristol"), ("GL", "Gloucester"), ("HR", "Hereford"),
   ("WR", "Worcester"), ("DY", "Dudley"), ("WV", "Wolverhampton"),
   ("WS", "Walsall"), ("ST", "Stoke-on-Trent"), ("TF", "Telford"),
   ("SY", "Shrewsbury"), ("CH", "Chester"), ("CW", "Crewe"),
   ("CF", "Cardiff"), ("NP", "Newport"), ("SA", "Swansea"),
   ("LD", "Llandrindod Wells"), ("LL", "Llandudno"), ("AB", "Aberdeen"),
   ("DD", "Dundee"), ("EH", "Edinburgh"), ("FK", "Falkirk"),
   ("G", "Glasgow"), ("IV", "Inverness"), ("KA", "Kilmarnock"),
   ("KY", "Kirkcaldy"), ("ML", "Motherwell"), ("PA", "Paisley"),
   ("PH", "Perth"), ("BT", "Belfast")]

/-- `postcode.match(/^([A-Z]{1,2})/)?.[1]`: the greedy 1–2-letter area
code of an (already upper-cased) postcode. -/
def areaCode (cs : List Char) : Option String :=
  match cs with
  | a :: b :: _ =>
      if isAsciiUpper a then
        some (if isAsciiUpper b then ⟨[a, b]⟩ else ⟨[a]⟩)
      else none
  | a :: [] => if isAsciiUpper a then some ⟨[a]⟩ else none
  | [] => none

/-- The `[0-9]{1,2}` part of the longer-prefix pattern: greedy 1–2
digits at the head of the list. -/
def digitsPart : List Char → Option (List Char)
  | d1 :: d2 :: _ =>
      if isAsciiDigit d1 then
        some (if isAsciiDigit d2 then [d1, d2] else [d1])
      else none
  | d1 :: [] => if isAsciiDigit d1 then some [d1] else none
  | [] => none

/-- `postcode.match(/^([A-Z]{1,2}[0-9]{1,2})/)?.[1]`.  When the first
two characters are both letters, backtracking to a single letter cannot
succeed (the next character, a letter, is not a digit), so the
alternatives reduce to this shape. -/
def longerAreaCode (cs : List Char) : Option String :=
  match cs with
  | a :: b :: rest =>
      if isAsciiUpper a then
        if isAsciiUpper b then
          match digitsPart rest with
          | some ds => some ⟨a :: b :: ds⟩
          | none => none
        else
          match digitsPart (b :: rest) with
          | some ds => some ⟨a :: ds⟩
          | none => none
      else none
  | _ => none

/-- `WeatherController.getNearbyCityForPostcode` (src/unnamed/part_004
lines 422–521): look the area code up in the table, then the longer
letters-plus-digits code, then fall back to `'United Kingdom'`. -/
def getNearbyCityForPostcode (cs : List Char) : String :=
  match (areaCode cs).bind (fun a => postcodeAreas.lookup a) with
  | some city => city
  | none =>
      match (longerAreaCode cs).bind (fun a => postcodeAreas.lookup a) with
      | some city => city
      | none => "United Kingdom"

/-- `WeatherController.cleanLocation` (src/unnamed/part_004 lines
388–419): `none` models the two `throw` branches (empty input, cleaned
input shorter than 2).  A trimmed input matching the UK postcode
pattern is formatted and replaced by `getNearbyCityForPostcode`;
anything else has its whitespace collapsed and is cut to 100
characters. -/
def cleanLocation (cs : List Char) : Option String :=
  if cs = [] then none
  else
    let cleaned := jsTrim cs
    if isUKPostcode cleaned then
      some (getNearbyCityForPostcode (formatPostcode cleaned))
    else
      let c2 := (collapseWs cleaned).take 100
      if c2.length < 2 then none else some ⟨c2⟩

/-! ### Helper lemmas -/

theorem jsRound_mono {x y : ℚ} (h : x ≤ y) : jsRound x ≤ jsRound y := by
  exact Int.floor_le_floor (by linarith)

theorem jsRound_intCast (n : ℤ) : jsRound (n : ℚ) = n := by
  unfold jsRound
  rw [Int.floor_eq_iff]
  constructor <;> [push_cast; push_cast] <;> linarith

theorem round2_mono {x y : ℚ} (h : x ≤ y) : round2 x ≤ round2 y := by
  unfold round2
  have := jsRound_mono (x := x * 100) (y := y * 100) (by linarith)
  have hc : ((jsRound (x * 100) : ℚ)) ≤ (jsRound (y * 100) : ℚ) := by exact_mod_cast this
  linarith

theorem round2_intCast (n : ℤ) : round2 (n : ℚ) = n := by
  unfold round2
  have : ((n : ℚ) * 100) = ((n * 100 : ℤ) : ℚ) := by push_cast; ring
  rw [this, jsRound_intCast]
  push_cast
  ring

theorem foldl_add_acc (f : ℚ → ℚ) (vs : List ℚ) :
    ∀ a : ℚ, vs.foldl (fun s v => s + f v) a = a + (vs.map f).sum := by
  induction vs with
  | nil => intro a; simp
  | cons v vs ih => intro a; simp [ih, add_assoc]

theorem jsSum_eq_sum (vs : List ℚ) : jsSum vs = vs.sum := by
  have h := foldl_add_acc id vs 0
  simpa [jsSum] using h

theorem meanExact_eq_specMean (vs : List ℚ) : meanExact vs = specMean vs := by
  unfold meanExact specMean
  rw [jsSum_eq_sum]

theorem varianceExact_eq_specPopVariance (vs : List ℚ) :
    varianceExact vs = specPopVariance vs := by
  unfold varianceExact specPopVariance
  rw [foldl_add_acc (fun v => (v - meanExact vs) ^ 2) vs 0, zero_add,
    meanExact_eq_specMean]

theorem foldl_min_le_init (vs : List ℚ) : ∀ a : ℚ, vs.foldl min a ≤ a := by
  induction vs with
  | nil => intro a; simp
  | cons v vs ih =>
      intro a
      calc (v :: vs).foldl min a = vs.foldl min (min a v) := rfl
        _ ≤ min a v := ih _
        _ ≤ a := min_le_left _ _

theorem foldl_min_le_mem (vs : List ℚ) {v : ℚ} :
    ∀ a : ℚ, v ∈ vs → vs.foldl min a ≤ v := by
  induction vs with
  | nil => intro a h; cases h
  | cons w vs ih =>
      intro a h
      rcases List.mem_cons.mp h with rfl | h
      · calc (v :: vs).foldl min a = vs.foldl min (min a v) := rfl
          _ ≤ min a v := foldl_min_le_init _ _
          _ ≤ v := min_le_right _ _
      · exact ih _ h

theorem foldl_min_mem (vs : List ℚ) :
    ∀ a : ℚ, vs.foldl min a = a ∨ vs.foldl min a ∈ vs := by
  induction vs with
  | nil => intro a; left; rfl
  | cons v vs ih =>
      intro a
      have hc : (v :: vs).foldl min a = vs.foldl min (min a v) := rfl
      rcases ih (min a v) with h | h
      · rcases le_total a v with hle | hle
        · left; rw [hc, h, min_eq_left hle]
        · right; rw [hc, h, min_eq_right hle]; exact List.mem_cons_self _ _
      · right; rw [hc]; exact List.mem_cons_of_mem _ h

theorem foldl_max_init_le (vs : List ℚ) : ∀ a : ℚ, a ≤ vs.foldl max a := by
  induction vs with
  | nil => intro a; simp
  | cons v vs ih =>
      intro a
      calc a ≤ max a v := le_max_left _ _
        _ ≤ vs.foldl max (max a v) := ih _
        _ = (v :: vs).foldl max a := rfl

theorem foldl_max_mem_le (vs : List ℚ) {v : ℚ} :
    ∀ a : ℚ, v ∈ vs → v ≤ vs.foldl max a := by
  induction vs with
  | nil => intro a h; cases h
  | cons w vs ih =>
      intro a h
      rcases List.mem_cons.mp h with rfl | h
      · calc v ≤ max a v := le_max_right _ _
          _ ≤ vs.foldl max (max a v) := foldl_max_init_le _ _
          _ = (v :: vs).foldl max a := rfl
      · exact ih _ h

theorem foldl_max_mem (vs : List ℚ) :
    ∀ a : ℚ, vs.foldl max a = a ∨ vs.foldl max a ∈ vs := by
  induction vs with
  | nil => intro a; left; rfl
  | cons v vs ih =>
      intro a
      have hc : (v :: vs).foldl max a = vs.foldl max (max a v) := rfl
      rcases ih (max a v) with h | h
      · rcases le_total a v with hle | hle
        · right; rw [hc, h, max_eq_right hle]; exact List.mem_cons_self _ _
        · left; rw [hc, h, max_eq_left hle]
      · right; rw [hc]; exact List.mem_cons_of_mem _ h

theorem listMin_le {vs : List ℚ} {v : ℚ} (h : v ∈ vs) : listMin vs ≤ v := by
  cases vs with
  | nil => cases h
  | cons w vs =>
      rcases List.mem_cons.mp h with rfl | h
      · exact foldl_min_le_init vs v
      · exact foldl_min_le_mem vs _ h

theorem le_listMax {vs : List ℚ} {v : ℚ} (h : v ∈ vs) : v ≤ listMax vs := by
  cases vs with
  | nil => cases h
  | cons w vs =>
      rcases List.mem_cons.mp h with rfl | h
      · exact foldl_max_init_le vs v
      · exact foldl_max_mem_le vs _ h

theorem listMin_mem {vs : List ℚ} (h : vs ≠ []) : listMin vs ∈ vs := by
  cases vs with
  | nil => exact absurd rfl h
  | cons v vs =>
      rcases foldl_min_mem vs v with h1 | h1
      · rw [listMin, h1]; exact List.mem_cons_self _ _
      · exact List.mem_cons_of_mem _ (by rw [listMin]; exact h1)

theorem listMax_mem {vs : List ℚ} (h : vs ≠ []) : listMax vs ∈ vs := by
  cases vs with
  | nil => exact absurd rfl h
  | cons v vs =>
      rcases foldl_max_mem vs v with h1 | h1
      · rw [listMax, h1]; exact List.mem_cons_self _ _
      · exact List.mem_cons_of_mem _ (by rw [listMax]; exact h1)

theorem meanExact_le_listMax {vs : List ℚ} (h : vs ≠ []) :
    meanExact vs ≤ listMax vs := by
  have hlen : 0 < (vs.length : ℚ) := by
    have : 0 < vs.length := List.length_pos.mpr h
    exact_mod_cast this
  have hsum : vs.sum ≤ vs.length • listMax vs :=
    List.sum_le_card_nsmul vs _ (fun x hx => le_listMax hx)
  rw [nsmul_eq_mul] at hsum
  rw [meanExact, jsSum_eq_sum, div_le_iff₀ hlen]
  linarith

theorem listMin_le_meanExact {vs : List ℚ} (h : vs ≠ []) :
    listMin vs ≤ meanExact vs := by
  have hlen : 0 < (vs.length : ℚ) := by
    have : 0 < vs.length := List.length_pos.mpr h
    exact_mod_cast this
  have hsum : vs.length • listMin vs ≤ vs.sum :=
    List.card_nsmul_le_sum vs _ (fun x hx => listMin_le hx)
  rw [nsmul_eq_mul] at hsum
  rw [meanExact, jsSum_eq_sum, le_div_iff₀ hlen]
  linarith

theorem getD_mem {l : List ℚ} {n : ℕ} (h : n < l.length) (d : ℚ) :
    l.getD n d ∈ l := by
  rw [List.getD_eq_getElem?_getD, List.getElem?_eq_getElem h]
  exact List.getElem_mem h

theorem calculateMedian_odd {vs : List ℚ} (h : vs.length % 2 = 1) :
    calculateMedian vs = specMedian vs := by
  have hne : ¬ vs.length = 0 := by omega
  have hlen : (vs.insertionSort (· ≤ ·)).length = vs.length :=
    List.length_insertionSort _ _
  have hodd : ¬ vs.length % 2 = 0 := by omega
  simp only [calculateMedian, specMedian, hlen]
  rw [if_neg hne, if_neg hodd, if_neg hodd]

theorem calculateMedian_even {vs : List ℚ} (h : vs.length % 2 = 0)
    (hne : vs.length ≠ 0) :
    calculateMedian vs = (jsRound (specMedian vs) : ℚ) := by
  have hlen : (vs.insertionSort (· ≤ ·)).length = vs.length :=
    List.length_insertionSort _ _
  simp only [calculateMedian, specMedian, hlen]
  rw [if_neg hne, if_pos h, if_pos h]

theorem calculateMedian_mem_of_odd {vs : List ℚ} (h : vs.length % 2 = 1) :
    calculateMedian vs ∈ vs := by
  have hne : ¬ vs.length = 0 := by omega
  have hlen : (vs.insertionSort (· ≤ ·)).length = vs.length :=
    List.length_insertionSort _ _
  have hodd : ¬ vs.length % 2 = 0 := by omega
  have hmid : vs.length / 2 < vs.length := by omega
  simp only [calculateMedian, hlen]
  rw [if_neg hne, if_neg hodd]
  exact (List.mem_insertionSort _).mp (getD_mem (by rw [hlen]; exact hmid) 0)

/-- For even length, the two middle elements of the sort are members of
the original list, so the full-precision even-length median lies between
`min` and `max`. -/
theorem specMedian_bounds {vs : List ℚ} (hne : vs.length ≠ 0) :
    listMin vs ≤ specMedian vs ∧ specMedian vs ≤ listMax vs := by
  have hlen : (vs.insertionSort (· ≤ ·)).length = vs.length :=
    List.length_insertionSort _ _
  have hmid : vs.length / 2 < vs.length := by omega
  have hmem2 : (vs.insertionSort (· ≤ ·)).getD (vs.length / 2) 0 ∈ vs :=
    (List.mem_insertionSort _).mp (getD_mem (by rw [hlen]; omega) 0)
  have hmem1 : (vs.insertionSort (· ≤ ·)).getD (vs.length / 2 - 1) 0 ∈ vs :=
    (List.mem_insertionSort _).mp (getD_mem (by rw [hlen]; omega) 0)
  simp only [specMedian, hlen]
  by_cases h : vs.length % 2 = 0
  · simp only [h, if_true]
    have b1 := listMin_le hmem1
    have b2 := listMin_le hmem2
    have c1 := le_listMax hmem1
    have c2 := le_listMax hmem2
    constructor <;> linarith
  · simp only [h, if_false]
    exact ⟨listMin_le hmem2, le_listMax hmem2⟩

/-- Over integer-valued data, the code's median (which rounds the
even-length case to a whole number) still lies between `min` and `max`,
because rounding is monotone and fixes the integer endpoints. -/
theorem calculateMedian_bounds_int {vs : List ℚ} (hne : vs.length ≠ 0)
    (hint : ∀ v ∈ vs, ∃ k : ℤ, v = (k : ℚ)) :
    listMin vs ≤ calculateMedian vs ∧ calculateMedian vs ≤ listMax vs := by
  have hnil : vs ≠ [] := by
    intro h; rw [h] at hne; exact hne rfl
  obtain ⟨kmin, hkmin⟩ := hint _ (listMin_mem hnil)
  obtain ⟨kmax, hkmax⟩ := hint _ (listMax_mem hnil)
  rcases Nat.even_or_odd vs.length with he | ho
  · have h2 : vs.length % 2 = 0 := Nat.even_iff.mp he
    rw [calculateMedian_even h2 hne]
    obtain ⟨hlo, hhi⟩ := specMedian_bounds hne
    constructor
    · have : jsRound (listMin vs) ≤ jsRound (specMedian vs) := jsRound_mono hlo
      rw [hkmin, jsRound_intCast] at this
      rw [hkmin]
      exact_mod_cast this
    · have : jsRound (specMedian vs) ≤ jsRound (listMax vs) := jsRound_mono hhi
      rw [hkmax, jsRound_intCast] at this
      rw [hkmax]
      exact_mod_cast this
  · have h1 : vs.length % 2 = 1 := Nat.odd_iff.mp ho
    have hmem := calculateMedian_mem_of_odd h1
    exact ⟨listMin_le hmem, le_listMax hmem⟩

/-- Over integer-valued data the returned 2-decimal-rounded mean lies
between `min` and `max`. -/
theorem round2_mean_bounds_int {vs : List ℚ} (hne : vs ≠ [])
    (hint : ∀ v ∈ vs, ∃ k : ℤ, v = (k : ℚ)) :
    listMin vs ≤ round2 (meanExact vs) ∧ round2 (meanExact vs) ≤ listMax vs := by
  obtain ⟨kmin, hkmin⟩ := hint _ (listMin_mem hne)
  obtain ⟨kmax, hkmax⟩ := hint _ (listMax_mem hne)
  constructor
  · have := round2_mono (listMin_le_meanExact hne)
    rw [hkmin, round2_intCast] at this
    rw [hkmin]
    exact this
  · have := round2_mono (meanExact_le_listMax hne)
    rw [hkmax, round2_intCast] at this
    rw [hkmax]
    exact this

theorem length_filterMap_id (l : List (Option ℚ)) :
    (l.filterMap id).length = l.countP (fun o => o.isSome) := by
  induction l with
  | nil => rfl
  | cons o l ih => cases o <;> simp [List.filterMap_cons, List.countP_cons, ih]

theorem extractValues_length (records : List RawCurrent) (m : Metric) :
    (extractValues records m).length =
      records.countP (fun r => (metricValue (getStandardizedCurrent r) m).isSome) := by
  unfold extractValues
  rw [length_filterMap_id, List.countP_map]
  rfl

/-- Unfolding of `compareMetricStats` on usable data. -/
theorem compareMetricStats_eq (records : List RawCurrent) (m : Metric)
    (hlen : ¬ (extractValues records m).length = 0) :
    compareMetricStats records m = some
    { values := extractValues records m
      count := (extractValues records m).length
      min := listMin (extractValues records m)
      max := listMax (extractValues records m)
      mean := round2 (meanExact (extractValues records m))
      median := calculateMedian (extractValues records m)
      variance := round2 (varianceExact (extractValues records m))
      range := listMax (extractValues records m) - listMin (extractValues records m) } := by
  unfold compareMetricStats
  rw [if_neg hlen]

theorem extractValues_scenario :
    extractValues scenarioRecords .temperature = [10, 12, 14] := by
  norm_num [extractValues, scenarioRecords, rawWithTemperature, emptyRaw,
    getStandardizedCurrent, metricValue, jsNumOrNull, List.filterMap_cons]

theorem varianceExact_scenario : varianceExact [(10:ℚ), 12, 14] = 8/3 := by
  norm_num [varianceExact, meanExact, jsSum]

theorem sqrt83_lb : (13/8 : ℝ) ≤ Real.sqrt (8/3) :=
  Real.le_sqrt_of_sq_le (by norm_num)

theorem sqrt83_ub : Real.sqrt ((8:ℝ)/3) < 327/200 := by
  rw [Real.sqrt_lt' (by norm_num)]
  norm_num

theorem sqrt83_ge : (6/5 : ℝ) ≤ Real.sqrt (8/3) :=
  Real.le_sqrt_of_sq_le (by norm_num)

/-! ## Claim C2 -/

/-- **C2, counterexample.**  The claim says the comparator's median
follows the conventional even/odd rule with rounding (to 2 decimal
places) applied only at the presentation boundary.  On celsius values
[10, 11] the conventional median is 10.5 (unchanged by 2-decimal
rounding), but the code returns `Math.round(10.5) = 11`: the even-length
median is rounded to a whole number. -/
theorem claim_C2_counterexample :
    ∃ s, compareMetricStats medianPairRecords .temperature = some s ∧
      s.median = 11 ∧
      specMedian (extractValues medianPairRecords .temperature) = 21/2 ∧
      round2 (21/2) = 21/2 ∧
      s.median ≠ round2 (specMedian (extractValues medianPairRecords .temperature)) := by
  have hx : extractValues medianPairRecords .temperature = [10, 11] := by
    norm_num [extractValues, medianPairRecords, rawWithTemperature, emptyRaw,
      getStandardizedCurrent, metricValue, jsNumOrNull, List.filterMap_cons]
  refine ⟨_, compareMetricStats_eq _ _ (by rw [hx]; simp), ?_, ?_, ?_, ?_⟩ <;>
    (try rw [hx]) <;>
    norm_num [calculateMedian, specMedian, List.insertionSort, List.orderedInsert,
      round2, jsRound, Int.floor_eq_iff]

/-- **C2, amended.**  For every non-empty list of usable metric values:
the comparator's internal mean is the arithmetic mean and its internal
variance the population variance (divide by N), both exposed rounded to
2 decimal places only at the presentation boundary;
`standardDeviation` is the square root of the (unrounded) population
variance, rounded only at the boundary; the median follows the
conventional rule for odd N, but for even N the average of the two
middle elements is rounded to the nearest whole number (not kept at full
precision / 2-decimal presentation rounding). -/
theorem claim_C2 (records : List RawCurrent) (m : Metric)
    (h : extractValues records m ≠ []) :
    ∃ s, compareMetricStats records m = some s ∧
      s.mean = round2 (specMean (extractValues records m)) ∧
      s.variance = round2 (specPopVariance (extractValues records m)) ∧
      stdDevRounded (extractValues records m) =
        round2R (Real.sqrt ((specPopVariance (extractValues records m) : ℚ) : ℝ)) ∧
      ((extractValues records m).length % 2 = 1 →
        s.median = specMedian (extractValues records m)) ∧
      ((extractValues records m).length % 2 = 0 →
        s.median = (jsRound (specMedian (extractValues records m)) : ℚ)) := by
  have hlen : ¬ (extractValues records m).length = 0 := by
    simpa [List.length_eq_zero] using h
  refine ⟨_, compareMetricStats_eq _ _ hlen, ?_, ?_, ?_, ?_, ?_⟩
  · rw [meanExact_eq_specMean]
  · rw [varianceExact_eq_specPopVariance]
  · rw [stdDevRounded, stdDevExact, varianceExact_eq_specPopVariance]
  · intro hodd
    exact calculateMedian_odd hodd
  · intro heven
    exact calculateMedian_even heven hlen

/-- **C2, witness**: the amended theorem at celsius values [10, 12, 14]. -/
theorem claim_C2_witness :
    ∃ s, compareMetricStats scenarioRecords .temperature = some s ∧
      s.mean = round2 (specMean (extractValues scenarioRecords .temperature)) ∧
      s.variance = round2 (specPopVariance (extractValues scenarioRecords .temperature)) ∧
      stdDevRounded (extractValues scenarioRecords .temperature) =
        round2R (Real.sqrt ((specPopVariance (extractValues scenarioRecords .temperature) : ℚ) : ℝ)) ∧
      ((extractValues scenarioRecords .temperature).length % 2 = 1 →
        (s.median = specMedian (extractValues scenarioRecords .temperature))) ∧
      ((extractValues scenarioRecords .temperature).length % 2 = 0 →
        s.median = (jsRound (specMedian (extractValues scenarioRecords .temperature)) : ℚ)) :=
  claim_C2 scenarioRecords .temperature (by rw [extractValues_scenario]; simp)

/-! ## Claim C3 -/

/-- **C3, counterexample.**  The claim asserts `agreement = true` for
celsius values [10, 12, 14].  The code computes
`standardDeviation < mean * 0.1` on the *unrounded* values:
`√(8/3) ≈ 1.633 < 1.2` is false, so `agreement` is false. -/
theorem claim_C3_counterexample :
    ¬ agreementHolds (extractValues scenarioRecords .temperature) := by
  rw [extractValues_scenario]
  unfold agreementHolds stdDevExact
  rw [varianceExact_scenario]
  intro hlt
  have h1 : ((12 : ℚ) : ℝ) * (1/10) = 6/5 := by norm_num
  have h2 : meanExact [(10:ℚ), 12, 14] = 12 := by norm_num [meanExact, jsSum]
  rw [h2, h1] at hlt
  have h3 : ((8/3 : ℚ) : ℝ) = (8:ℝ)/3 := by norm_num
  rw [h3] at hlt
  exact absurd hlt (not_lt.mpr sqrt83_ge)

/-- **C3, amended.**  For celsius values [10, 12, 14] the comparator
yields mean = 12.0, median = 12, variance = 2.67, standardDeviation
(rounded for presentation) = 1.63 — and `agreement = false`, because the
code's exact threshold arithmetic compares the unrounded standard
deviation √(8/3) ≈ 1.633 against 0.1 × 12 = 1.2. -/
theorem claim_C3 :
    ∃ s, compareMetricStats scenarioRecords .temperature = some s ∧
      s.mean = 12 ∧ s.median = 12 ∧ s.variance = 267/100 ∧
      stdDevRounded (extractValues scenarioRecords .temperature) = (163/100 : ℝ) ∧
      ¬ agreementHolds (extractValues scenarioRecords .temperature) := by
  have hlen : ¬ (extractValues scenarioRecords .temperature).length = 0 := by
    rw [extractValues_scenario]; norm_num
  refine ⟨_, compareMetricStats_eq _ _ hlen, ?_, ?_, ?_, ?_, ?_⟩
  · rw [extractValues_scenario]
    norm_num [meanExact, jsSum, round2, jsRound, Int.floor_eq_iff]
  · rw [extractValues_scenario]
    norm_num [calculateMedian, List.insertionSort, List.orderedInsert]
  · rw [extractValues_scenario, varianceExact_scenario]
    norm_num [round2, jsRound, Int.floor_eq_iff]
  · rw [extractValues_scenario]
    unfold stdDevRounded stdDevExact round2R jsRoundR
    rw [varianceExact_scenario]
    have h3 : ((8/3 : ℚ) : ℝ) = (8:ℝ)/3 := by norm_num
    rw [h3]
    have hfloor : (⌊Real.sqrt ((8:ℝ)/3) * 100 + 1/2⌋ : ℤ) = 163 := by
      rw [Int.floor_eq_iff]
      have h1 := sqrt83_lb
      have h2 := sqrt83_ub
      constructor
      · push_cast; nlinarith
      · push_cast; nlinarith
    rw [hfloor]
    norm_num
  · rw [extractValues_scenario]
    unfold agreementHolds stdDevExact
    rw [varianceExact_scenario]
    intro hlt
    have h2 : meanExact [(10:ℚ), 12, 14] = 12 := by norm_num [meanExact, jsSum]
    have h3 : ((8/3 : ℚ) : ℝ) = (8:ℝ)/3 := by norm_num
    rw [h2, h3] at hlt
    have h1 : ((12 : ℚ) : ℝ) * (1/10) = 6/5 := by norm_num
    rw [h1] at hlt
    exact absurd hlt (not_lt.mpr sqrt83_ge)

/-! ## Claim C8 -/

/-- **C8, counterexample.**  The claim asserts `min ≤ median ≤ max` for
the returned statistics.  With wind speeds (mph) 10.2 and 10.4 from two
sources, the even-count median is `Math.round((10.2+10.4)/2) = 10`,
which is *below* `min = 10.2`. -/
theorem claim_C8_counterexample :
    ∃ s, compareMetricStats windPairRecords .windSpeed = some s ∧
      2 ≤ windPairRecords.length ∧ s.median < s.min := by
  have hx : extractValues windPairRecords .windSpeed = [51/5, 52/5] := by
    norm_num [extractValues, windPairRecords, rawWithWindMph, emptyRaw,
      getStandardizedCurrent, metricValue, jsNumOrNull, List.filterMap_cons]
  refine ⟨_, compareMetricStats_eq _ _ (by rw [hx]; norm_num), ?_, ?_⟩
  · norm_num [windPairRecords]
  · rw [hx]
    norm_num [calculateMedian, List.insertionSort, List.orderedInsert,
      listMin, jsRound, Int.floor_eq_iff]

/-- **C8, amended.**  For ≥ 2 canonical records, `compare` returns
`count` equal to the number of records with a non-missing value for the
metric, and — provided the usable values are whole numbers, as the
adapters' rounding policy produces for temperature, humidity and hPa
pressure — the returned statistics satisfy `min ≤ median ≤ max` and
`min ≤ mean ≤ max`.  (For non-integer values the even-count median is
rounded to a whole number and can fall outside `[min, max]`.) -/
theorem claim_C8 (records : List RawCurrent) (m : Metric)
    (_hrec : 2 ≤ records.length)
    (hne : extractValues records m ≠ [])
    (hint : ∀ v ∈ extractValues records m, ∃ k : ℤ, v = (k : ℚ)) :
    ∃ s, compareMetricStats records m = some s ∧
      s.count = records.countP
        (fun r => (metricValue (getStandardizedCurrent r) m).isSome) ∧
      s.min ≤ s.median ∧ s.median ≤ s.max ∧ s.min ≤ s.mean ∧ s.mean ≤ s.max := by
  have hlen : ¬ (extractValues records m).length = 0 := by
    simpa [List.length_eq_zero] using hne
  obtain ⟨hmed1, hmed2⟩ := calculateMedian_bounds_int hlen hint
  obtain ⟨hmean1, hmean2⟩ := round2_mean_bounds_int hne hint
  exact ⟨_, compareMetricStats_eq _ _ hlen, extractValues_length _ _,
    hmed1, hmed2, hmean1, hmean2⟩

/-- **C8, witness**: the amended theorem on three records with the
integer celsius values [10, 12, 14]. -/
theorem claim_C8_witness :
    ∃ s, compareMetricStats scenarioRecords .temperature = some s ∧
      s.count = scenarioRecords.countP
        (fun r => (metricValue (getStandardizedCurrent r) .temperature).isSome) ∧
      s.min ≤ s.median ∧ s.median ≤ s.max ∧ s.min ≤ s.mean ∧ s.mean ≤ s.max :=
  claim_C8 scenarioRecords .temperature (by norm_num [scenarioRecords])
    (by rw [extractValues_scenario]; simp)
    (by
      rw [extractValues_scenario]
      intro v hv
      simp only [List.mem_cons, List.not_mem_nil, or_false] at hv
      rcases hv with rfl | rfl | rfl
      · exact ⟨10, by norm_num⟩
      · exact ⟨12, by norm_num⟩
      · exact ⟨14, by norm_num⟩)

/-! ## Claim C4 -/

/-- **C4, counterexample.**  A record carrying humidity 0, UV 0 and
wind direction 0 standardizes to exactly the same record as one in which
those fields are absent: after standardization a genuine zero is *not*
distinguishable from absence (the `|| null` idiom maps the falsy number
0 to `null`). -/
theorem claim_C4_counterexample :
    getStandardizedCurrent zeroFieldsRaw = getStandardizedCurrent emptyRaw ∧
    (getStandardizedCurrent zeroFieldsRaw).humidity = none ∧
    (getStandardizedCurrent zeroFieldsRaw).uv = none ∧
    (getStandardizedCurrent zeroFieldsRaw).windDirection = none := by
  refine ⟨?_, ?_, ?_, ?_⟩ <;>
    simp [getStandardizedCurrent, zeroFieldsRaw, emptyRaw, jsNumOrNull]

/-- **C4, amended.**  Standardization maps an absent numeric field to
the explicit absent marker `null` (never to 0) and preserves any nonzero
value — but it also maps a genuine value 0 (humidity, UV index, wind
direction, gust) to `null`, so after standardization zero is
indistinguishable from absence. -/
theorem claim_C4 (c : RawCurrent) (q : ℚ) (hq : q ≠ 0) :
    (c.humidity = none → (getStandardizedCurrent c).humidity = none) ∧
    (c.humidity = some q → (getStandardizedCurrent c).humidity = some q) ∧
    (c.humidity = some 0 → (getStandardizedCurrent c).humidity = none) ∧
    (c.uv = none → (getStandardizedCurrent c).uv = none) ∧
    (c.uv = some q → (getStandardizedCurrent c).uv = some q) ∧
    (c.uv = some 0 → (getStandardizedCurrent c).uv = none) ∧
    (c.windDirection = none → (getStandardizedCurrent c).windDirection = none) ∧
    (c.windDirection = some q → (getStandardizedCurrent c).windDirection = some q) ∧
    (c.windDirection = some 0 → (getStandardizedCurrent c).windDirection = none) ∧
    (c.windGust = none → (getStandardizedCurrent c).windGust = none) ∧
    (c.windGust = some q → (getStandardizedCurrent c).windGust = some q) ∧
    (c.windGust = some 0 → (getStandardizedCurrent c).windGust = none) := by
  refine ⟨?_, ?_, ?_, ?_, ?_, ?_, ?_, ?_, ?_, ?_, ?_, ?_⟩ <;>
    intro h <;> simp [getStandardizedCurrent, h, jsNumOrNull, hq]

/-- **C4, witness**: the amended theorem applied at a record with
humidity 55 and at a record with humidity 0. -/
theorem claim_C4_witness :
    ((rawWithHumidity 55).humidity = some 55 →
      (getStandardizedCurrent (rawWithHumidity 55)).humidity = some 55) ∧
    ((rawWithHumidity 0).humidity = some 0 →
      (getStandardizedCurrent (rawWithHumidity 0)).humidity = none) :=
  ⟨(claim_C4 (rawWithHumidity 55) 55 (by norm_num)).2.1,
   (claim_C4 (rawWithHumidity 0) 55 (by norm_num)).2.2.1⟩

/-! ## Claim C5 -/

/-- **C5, counterexample.**  For the OpenWeatherMap adapter the raw
provider value is already m/s, and km/h is *derived from* mps
(`kmh = round2(mps × 3.6)`), not the other way round.  At raw wind
speed 0.123 m/s the normalized record has `kmh = 0.44` and
`round2(kmh / 3.6) = 0.12 ≠ 0.123 = mps`, so the claimed relation
`mps = kmh / 3.6` (to 2 decimal places) fails for this adapter. -/
theorem claim_C5_counterexample :
    (owmWindSpeed (123/1000)).mps ≠
      round2 ((owmWindSpeed (123/1000)).kmh / 3.6) := by
  norm_num [owmWindSpeed, round2, jsRound, Int.floor_eq_iff]

/-- **C5, amended.**  The relation `mps = round2(kmh / 3.6)` holds
definitionally for the WeatherAPI and AccuWeather adapters, whose raw
speed is in km/h; the OpenWeatherMap adapter's raw speed is in m/s and
satisfies the inverse relation `kmh = round2(mps × 3.6)` instead. -/
theorem claim_C5 :
    (∀ wind_mph wind_kph : ℚ,
      (weatherApiWindSpeed wind_mph wind_kph).mps =
        round2 ((weatherApiWindSpeed wind_mph wind_kph).kmh / 3.6)) ∧
    (∀ speedKmh speedMph : ℚ,
      (accuWindSpeed speedKmh speedMph).mps =
        round2 ((accuWindSpeed speedKmh speedMph).kmh / 3.6)) ∧
    (∀ speed : ℚ,
      (owmWindSpeed speed).kmh = round2 ((owmWindSpeed speed).mps * 3.6)) :=
  ⟨fun _ _ => rfl, fun _ _ => rfl, fun _ => rfl⟩

/-! ### Query-log helper lemmas -/

/-- `calculateMedian` re-sorts its input, so feeding it the already
sorted list gives the same result. -/
theorem calculateMedian_insertionSort (vs : List ℚ) :
    calculateMedian (vs.insertionSort (· ≤ ·)) = calculateMedian vs := by
  unfold calculateMedian
  rw [List.Sorted.insertionSort_eq (List.sorted_insertionSort _ vs),
    List.length_insertionSort]

/-- Unfolding of `calculateStats` on a non-empty log list. -/
theorem calculateStats_eq (logs : List LogEntry) (h : ¬ logs.length = 0) :
    calculateStats logs =
    { total := logs.length
      successful := (logs.filter (fun l => l.status = "success")).length
      failed := (logs.filter (fun l => l.status = "error")).length
      successRate := jsRound
        (((logs.filter (fun l => l.status = "success")).length : ℚ) / logs.length * 100)
      averageResponseTime :=
        if (((logs.map rtOrZero).filter (fun t => 0 < t)).insertionSort (· ≤ ·)).length = 0
        then 0
        else (jsRound (jsSum (((logs.map rtOrZero).filter (fun t => 0 < t)).insertionSort (· ≤ ·)) /
          (((logs.map rtOrZero).filter (fun t => 0 < t)).insertionSort (· ≤ ·)).length) : ℚ)
      medianResponseTime :=
        if (((logs.map rtOrZero).filter (fun t => 0 < t)).insertionSort (· ≤ ·)).length = 0
        then 0
        else calculateMedian (((logs.map rtOrZero).filter (fun t => 0 < t)).insertionSort (· ≤ ·))
      minResponseTime :=
        if (((logs.map rtOrZero).filter (fun t => 0 < t)).insertionSort (· ≤ ·)).length = 0
        then 0
        else listMin (((logs.map rtOrZero).filter (fun t => 0 < t)).insertionSort (· ≤ ·))
      maxResponseTime :=
        if (((logs.map rtOrZero).filter (fun t => 0 < t)).insertionSort (· ≤ ·)).length = 0
        then 0
        else listMax (((logs.map rtOrZero).filter (fun t => 0 < t)).insertionSort (· ≤ ·)) } := by
  unfold calculateStats
  rw [if_neg h]

/-- The positive response times, described spec-side: the entries with
`responseTime > 0`, in order, mapped to their response times. -/
theorem positives_eq (logs : List LogEntry) :
    (logs.map rtOrZero).filter (fun t => 0 < t) =
      (logs.filter (fun l => 0 < rtOrZero l)).map rtOrZero :=
  List.filter_map rtOrZero logs

/-- The success rate of `calculateStats`, in the claim's form
`round(100 × successful / total)`, valid for every log list (division by
zero is the junk value 0, matching the code's 0 for the empty list). -/
theorem jsRoundZero : jsRound 0 = 0 := by
  norm_num [jsRound]

theorem calculateStats_successRate (logs : List LogEntry) :
    (calculateStats logs).successRate =
      jsRound (100 * (logs.countP (fun l => l.status = "success") : ℚ) / logs.length) := by
  by_cases h : logs.length = 0
  · have : logs = [] := List.length_eq_zero.mp h
    subst this
    simp [calculateStats, jsRoundZero]
  · rw [calculateStats_eq logs h]
    rw [List.countP_eq_length_filter]
    ring_nf

theorem calculateStats_total (logs : List LogEntry) :
    (calculateStats logs).total = logs.length := by
  by_cases h : logs.length = 0
  · have : logs = [] := List.length_eq_zero.mp h
    subst this; rfl
  · rw [calculateStats_eq logs h]

theorem calculateStats_successful (logs : List LogEntry) :
    (calculateStats logs).successful =
      logs.countP (fun l => l.status = "success") := by
  by_cases h : logs.length = 0
  · have : logs = [] := List.length_eq_zero.mp h
    subst this; rfl
  · rw [calculateStats_eq logs h]
    exact (List.countP_eq_length_filter _ _).symm

theorem calculateStats_failed (logs : List LogEntry) :
    (calculateStats logs).failed =
      logs.countP (fun l => l.status = "error") := by
  by_cases h : logs.length = 0
  · have : logs = [] := List.length_eq_zero.mp h
    subst this; rfl
  · rw [calculateStats_eq logs h]
    exact (List.countP_eq_length_filter _ _).symm

theorem countP_disjoint_le {α : Type} (p q : α → Bool)
    (hpq : ∀ a, ¬(p a = true ∧ q a = true)) (l : List α) :
    l.countP p + l.countP q ≤ l.length := by
  induction l with
  | nil => simp
  | cons a t ih =>
      rw [List.countP_cons, List.countP_cons, List.length_cons]
      by_cases hp : p a = true
      · have hq : ¬ q a = true := fun hq => hpq a ⟨hp, hq⟩
        simp [hp, hq]
        omega
      · by_cases hq : q a = true <;> simp [hp, hq] <;> omega

theorem countP_disjoint_lt {α : Type} [DecidableEq α] (p q : α → Bool)
    (hpq : ∀ a, ¬(p a = true ∧ q a = true)) {l : List α} {e : α}
    (hmem : e ∈ l) (hp : ¬ p e = true) (hq : ¬ q e = true) :
    l.countP p + l.countP q < l.length := by
  have hperm : l.Perm (e :: l.erase e) := List.perm_cons_erase hmem
  rw [hperm.countP_eq, hperm.countP_eq, hperm.length_eq]
  rw [List.countP_cons, List.countP_cons, List.length_cons]
  simp [hp, hq]
  have := countP_disjoint_le p q hpq (l.erase e)
  omega

theorem status_not_both (l : LogEntry) :
    ¬((decide (l.status = "success")) = true ∧ (decide (l.status = "error")) = true) := by
  rintro ⟨h1, h2⟩
  simp only [decide_eq_true_eq] at h1 h2
  rw [h1] at h2
  exact absurd h2 (by decide)

theorem countP_status_le (logs : List LogEntry) :
    logs.countP (fun l => l.status = "success") +
      logs.countP (fun l => l.status = "error") ≤ logs.length :=
  countP_disjoint_le _ _ status_not_both logs

theorem countP_status_lt {logs : List LogEntry} {e : LogEntry}
    (hmem : e ∈ logs) (hs : e.status ≠ "success") (he : e.status ≠ "error") :
    logs.countP (fun l => l.status = "success") +
      logs.countP (fun l => l.status = "error") < logs.length :=
  countP_disjoint_lt _ _ status_not_both hmem (by simpa using hs) (by simpa using he)

theorem jsRound_rate_mono {s n : ℕ} (hsn : s ≤ n) :
    jsRound (100 * (s : ℚ) / (n + 1)) ≤ jsRound (100 * (s : ℚ) / n) := by
  rcases Nat.eq_zero_or_pos n with rfl | hn
  · have hs : s = 0 := Nat.le_zero.mp hsn
    subst hs
    norm_num
  · apply jsRound_mono
    have hn1 : (0:ℚ) < n := by exact_mod_cast hn
    have hn2 : (0:ℚ) < (n:ℚ) + 1 := by linarith
    rw [div_le_div_iff₀ hn2 hn1]
    have hs0 : (0:ℚ) ≤ 100 * (s:ℚ) := by positivity
    nlinarith

/-! ## Claim C7 -/

/-- **C7.**  For every list of query-log entries, `calculateStats`
returns `successRate = round(100 × successful / total)` where
`successful` counts every entry with status `'success'` (cache hits,
logged with response time 0, included), while `averageResponseTime` and
`medianResponseTime` are computed only over the entries with response
time > 0, so cache hits are excluded from the latency statistics. -/
theorem claim_C7 (logs : List LogEntry) :
    (calculateStats logs).total = logs.length ∧
    (calculateStats logs).successful = logs.countP (fun l => l.status = "success") ∧
    (calculateStats logs).failed = logs.countP (fun l => l.status = "error") ∧
    (calculateStats logs).successRate =
      jsRound (100 * (logs.countP (fun l => l.status = "success") : ℚ) / logs.length) ∧
    (calculateStats logs).averageResponseTime =
      (jsRound (((logs.filter (fun l => 0 < rtOrZero l)).map rtOrZero).sum /
        ((logs.filter (fun l => 0 < rtOrZero l)).map rtOrZero).length) : ℚ) ∧
    (calculateStats logs).medianResponseTime =
      calculateMedian ((logs.filter (fun l => 0 < rtOrZero l)).map rtOrZero) := by
  by_cases h : logs.length = 0
  · have : logs = [] := List.length_eq_zero.mp h
    subst this
    refine ⟨rfl, rfl, rfl, ?_, ?_, ?_⟩ <;>
      simp [calculateStats, calculateMedian, jsRoundZero]
  · rw [calculateStats_eq logs h]
    refine ⟨rfl, (List.countP_eq_length_filter _ _).symm,
      (List.countP_eq_length_filter _ _).symm, ?_, ?_, ?_⟩
    · rw [List.countP_eq_length_filter]
      ring_nf
    · dsimp only
      rw [List.length_insertionSort, positives_eq]
      by_cases hP : ((logs.filter (fun l => 0 < rtOrZero l)).map rtOrZero).length = 0
      · rw [if_pos hP, hP]
        have hnil : ((logs.filter (fun l => 0 < rtOrZero l)).map rtOrZero) = [] :=
          List.length_eq_zero.mp hP
        rw [hnil]
        simp [jsRoundZero]
      · rw [if_neg hP]
        rw [jsSum_eq_sum,
          (List.perm_insertionSort (· ≤ ·)
            ((logs.filter (fun l => 0 < rtOrZero l)).map rtOrZero)).sum_eq]
    · dsimp only
      rw [List.length_insertionSort, positives_eq]
      by_cases hP : ((logs.filter (fun l => 0 < rtOrZero l)).map rtOrZero).length = 0
      · rw [if_pos hP]
        have hnil : ((logs.filter (fun l => 0 < rtOrZero l)).map rtOrZero) = [] :=
          List.length_eq_zero.mp hP
        rw [hnil]
        simp [calculateMedian]
      · rw [if_neg hP, calculateMedian_insertionSort]

/-! ## Claim C10 -/

/-- **C10.**  `calculateStats` counts only entries with status exactly
`'success'` as successful and only status exactly `'error'` as failed;
`successful + failed ≤ total` always, strictly when some entry carries
any other status; and appending such an entry (which enlarges the
denominator `total` without changing `successful`) can only lower the
reported success rate. -/
theorem claim_C10 (logs : List LogEntry) (e : LogEntry)
    (hs : e.status ≠ "success") (he : e.status ≠ "error") :
    (calculateStats logs).successful = logs.countP (fun l => l.status = "success") ∧
    (calculateStats logs).failed = logs.countP (fun l => l.status = "error") ∧
    (calculateStats logs).successful + (calculateStats logs).failed ≤
      (calculateStats logs).total ∧
    (e ∈ logs →
      (calculateStats logs).successful + (calculateStats logs).failed <
        (calculateStats logs).total) ∧
    (calculateStats (logs ++ [e])).successRate ≤ (calculateStats logs).successRate := by
  have hsucc := calculateStats_successful logs
  have hfail := calculateStats_failed logs
  have htot := calculateStats_total logs
  refine ⟨hsucc, hfail, ?_, ?_, ?_⟩
  · rw [hsucc, hfail, htot]
    exact countP_status_le logs
  · intro hmem
    rw [hsucc, hfail, htot]
    exact countP_status_lt hmem hs he
  · rw [calculateStats_successRate, calculateStats_successRate]
    have hcount : (logs ++ [e]).countP (fun l => l.status = "success") =
        logs.countP (fun l => l.status = "success") := by
      rw [List.countP_append]
      simp [hs]
    have hlen : (logs ++ [e]).length = logs.length + 1 := by simp
    rw [hcount, hlen]
    push_cast
    exact jsRound_rate_mono (by
      have := List.countP_le_length (l := logs) (p := fun l => l.status = "success")
      exact this)

/-- **C10, witness**: the theorem at a log with one success, one error
and one `'unknown'`-status entry. -/
theorem claim_C10_witness :
    (calculateStats c10Logs).successful = c10Logs.countP (fun l => l.status = "success") ∧
    (calculateStats c10Logs).failed = c10Logs.countP (fun l => l.status = "error") ∧
    (calculateStats c10Logs).successful + (calculateStats c10Logs).failed ≤
      (calculateStats c10Logs).total ∧
    (unknownEntry ∈ c10Logs →
      (calculateStats c10Logs).successful + (calculateStats c10Logs).failed <
        (calculateStats c10Logs).total) ∧
    (calculateStats (c10Logs ++ [unknownEntry])).successRate ≤
      (calculateStats c10Logs).successRate :=
  claim_C10 c10Logs unknownEntry (by decide) (by decide)

/-! ## Claim C1 -/

/-- **C1.**  The current-weather aggregation is partial-failure
tolerant: every succeeding provider appears in `results`, every failing
provider appears in `errors` (the fan-out is a total function — each
provider callback has its own availability check and `try`/`catch`, so
it never raises); the overall response is the success shape iff at
least one provider succeeded, and total failure yields the distinct
service-unavailable response carrying the error map.  In particular,
with three providers of which the second throws, `results` holds
providers 1 and 3 and `errors` holds provider 2. -/
theorem claim_C1 :
    (∀ ps : List Provider,
      (∀ p ∈ ps, providerSucceeds p = true →
        p.name ∈ (aggregateResults ps).map Prod.fst) ∧
      (∀ p ∈ ps, providerSucceeds p = false →
        p.name ∈ (aggregateErrors ps).map Prod.fst) ∧
      ((∃ p ∈ ps, providerSucceeds p = true) →
        compareCurrentWeather ps = .ok (aggregateResults ps) (aggregateErrors ps)) ∧
      ((∀ p ∈ ps, providerSucceeds p = false) →
        compareCurrentWeather ps = .serviceUnavailable (aggregateErrors ps))) ∧
    (aggregateResults partialFailureProviders).map Prod.fst =
      ["OpenWeatherMap", "AccuWeather"] ∧
    (aggregateErrors partialFailureProviders) =
      [("WeatherAPI", "WeatherAPI error: timeout of 10000ms exceeded")] ∧
    compareCurrentWeather partialFailureProviders =
      .ok (aggregateResults partialFailureProviders)
        (aggregateErrors partialFailureProviders) := by
  refine ⟨fun ps => ⟨?_, ?_, ?_, ?_⟩, ?_, ?_, ?_⟩
  · intro p hp hsucc
    rcases ho : p.outcome with _ | msg | d
    · rw [providerSucceeds, ho] at hsucc; cases hsucc
    · rw [providerSucceeds, ho] at hsucc; cases hsucc
    · have hvalid : weatherIsValid d = true := by
        rw [providerSucceeds, ho] at hsucc; exact hsucc
      refine List.mem_map.mpr ⟨(p.name, d), ?_, rfl⟩
      refine List.mem_filterMap.mpr ⟨p, hp, ?_⟩
      rw [ho]
      simp [hvalid]
  · intro p hp hfail
    rcases ho : p.outcome with _ | msg | d
    · refine List.mem_map.mpr
        ⟨(p.name, "Service not available (API key not configured)"), ?_, rfl⟩
      refine List.mem_filterMap.mpr ⟨p, hp, ?_⟩
      simp [providerError, ho]
    · refine List.mem_map.mpr ⟨(p.name, msg), ?_, rfl⟩
      refine List.mem_filterMap.mpr ⟨p, hp, ?_⟩
      simp [providerError, ho]
    · have hvalid : weatherIsValid d = false := by
        rw [providerSucceeds, ho] at hfail; exact hfail
      refine List.mem_map.mpr ⟨(p.name, "Invalid weather data received"), ?_, rfl⟩
      refine List.mem_filterMap.mpr ⟨p, hp, ?_⟩
      simp [providerError, ho, hvalid]
  · rintro ⟨p, hp, hsucc⟩
    have hmem : p.name ∈ (aggregateResults ps).map Prod.fst := by
      rcases ho : p.outcome with _ | msg | d
      · rw [providerSucceeds, ho] at hsucc; cases hsucc
      · rw [providerSucceeds, ho] at hsucc; cases hsucc
      · have hvalid : weatherIsValid d = true := by
          rw [providerSucceeds, ho] at hsucc; exact hsucc
        refine List.mem_map.mpr ⟨(p.name, d), ?_, rfl⟩
        refine List.mem_filterMap.mpr ⟨p, hp, ?_⟩
        rw [ho]
        simp [hvalid]
    have hne : (aggregateResults ps).length ≠ 0 := by
      intro h0
      rw [List.length_eq_zero.mp h0] at hmem
      cases hmem
    rw [compareCurrentWeather, if_neg hne]
  · intro hall
    have hnil : aggregateResults ps = [] := by
      apply List.filterMap_eq_nil_iff.mpr
      intro p hp
      rcases ho : p.outcome with _ | msg | d
      · rfl
      · rfl
      · have hps := hall p hp
        simp only [providerSucceeds, ho] at hps
        simp [ho, hps]
    rw [compareCurrentWeather, hnil]
    rfl
  · decide
  · decide
  · rfl

/-- **C1, witness**: with the throwing-provider scenario, at least one
provider succeeds, so the aggregation returns the success response. -/
theorem claim_C1_witness :
    compareCurrentWeather partialFailureProviders =
      .ok (aggregateResults partialFailureProviders)
        (aggregateErrors partialFailureProviders) :=
  (claim_C1.1 partialFailureProviders).2.2.1
    ⟨{ name := "OpenWeatherMap", outcome := .fetched validLondonData },
      List.mem_cons_self _ _, by decide⟩

/-! ## Claim C6 -/

/-- **C6.**  The circuit breaker: after 5 consecutive failures the
state is OPEN with failure count 5; a further call within 60000 ms of
the last failure fails immediately with the circuit-open outcome,
leaves the breaker untouched and — whatever the transport layer would
have answered — never reaches it; once 60000 ms have elapsed since the
last failure the next call is attempted in HALF_OPEN state, and its
success resets the breaker to CLOSED with failure count 0. -/
theorem claim_C6 (t1 t2 t3 t4 t5 t6 t7 : ℕ)
    (h6 : t6 - t5 < 60000) (h7 : 60000 ≤ t7 - t5) :
    (runBreaker initialBreaker
        [(t1, false), (t2, false), (t3, false), (t4, false), (t5, false)]).state
      = .opened ∧
    (runBreaker initialBreaker
        [(t1, false), (t2, false), (t3, false), (t4, false), (t5, false)]).failures
      = 5 ∧
    (∀ o : Bool,
      (breakerCall (runBreaker initialBreaker
        [(t1, false), (t2, false), (t3, false), (t4, false), (t5, false)]) t6 o)
        = { next := runBreaker initialBreaker
              [(t1, false), (t2, false), (t3, false), (t4, false), (t5, false)]
            outcome := .circuitOpen
            transportInvoked := false
            attemptState := none }) ∧
    (breakerCall (runBreaker initialBreaker
        [(t1, false), (t2, false), (t3, false), (t4, false), (t5, false)]) t7 true)
      = { next := { failures := 0, lastFailureTime := some t5, state := .closed }
          outcome := .success
          transportInvoked := true
          attemptState := some .halfOpen } := by
  have hb5 : runBreaker initialBreaker
      [(t1, false), (t2, false), (t3, false), (t4, false), (t5, false)]
      = { failures := 5, lastFailureTime := some t5, state := .opened } := by
    simp [runBreaker, breakerCall, initialBreaker]
  refine ⟨by rw [hb5], by rw [hb5], ?_, ?_⟩
  · intro o
    rw [hb5]
    rw [breakerCall, if_pos (by exact ⟨rfl, by simpa using h6⟩)]
  · rw [hb5]
    rw [breakerCall, if_neg (by
      rintro ⟨-, hlt⟩
      simp only [Option.getD_some] at hlt
      omega)]
    simp

/-- **C6, witness**: five failures at time 0, a rejected call at time
1000, and a successful call at time 60000. -/
theorem claim_C6_witness :
    (runBreaker initialBreaker
        [(0, false), (0, false), (0, false), (0, false), (0, false)]).state
      = .opened ∧
    (runBreaker initialBreaker
        [(0, false), (0, false), (0, false), (0, false), (0, false)]).failures
      = 5 ∧
    (∀ o : Bool,
      (breakerCall (runBreaker initialBreaker
        [(0, false), (0, false), (0, false), (0, false), (0, false)]) 1000 o)
        = { next := runBreaker initialBreaker
              [(0, false), (0, false), (0, false), (0, false), (0, false)]
            outcome := .circuitOpen
            transportInvoked := false
            attemptState := none }) ∧
    (breakerCall (runBreaker initialBreaker
        [(0, false), (0, false), (0, false), (0, false), (0, false)]) 60000 true)
      = { next := { failures := 0, lastFailureTime := some 0, state := .closed }
          outcome := .success
          transportInvoked := true
          attemptState := some .halfOpen } :=
  claim_C6 0 0 0 0 0 1000 60000 (by norm_num) (by norm_num)

/-! ### Postcode-cleaning helper lemmas -/

theorem lookup_some_key_mem {l : List (String × String)} {k v : String}
    (h : l.lookup k = some v) : k ∈ l.map Prod.fst := by
  induction l with
  | nil => cases h
  | cons p t ih =>
      by_cases hk : (k == p.1) = true
      · have : k = p.1 := eq_of_beq hk
        simp [this]
      · have hk2 : (k == p.1) = false := by simpa using hk
        rw [List.lookup, hk2] at h
        exact List.mem_cons_of_mem _ (ih h)

theorem lookup_some_val_mem {l : List (String × String)} {k v : String}
    (h : l.lookup k = some v) : v ∈ l.map Prod.snd := by
  induction l with
  | nil => cases h
  | cons p t ih =>
      by_cases hk : (k == p.1) = true
      · rw [List.lookup, hk] at h
        simp [← Option.some_inj.mp h]
      · have hk2 : (k == p.1) = false := by simpa using hk
        rw [List.lookup, hk2] at h
        exact List.mem_cons_of_mem _ (ih h)

theorem digitsPart_digit {cs ds : List Char} (h : digitsPart cs = some ds) :
    ∃ d ∈ ds, isAsciiDigit d = true := by
  rcases cs with _ | ⟨d1, _ | ⟨d2, rest⟩⟩
  · cases h
  · simp only [digitsPart] at h
    split at h
    · refine ⟨d1, ?_, by assumption⟩
      simp [← Option.some_inj.mp h]
    · cases h
  · simp only [digitsPart] at h
    split at h
    · refine ⟨d1, ?_, by assumption⟩
      rw [← Option.some_inj.mp h]
      split <;> simp
    · cases h

theorem longerAreaCode_digit {cs : List Char} {s : String}
    (h : longerAreaCode cs = some s) : ∃ d ∈ s.data, isAsciiDigit d = true := by
  rcases cs with _ | ⟨a, _ | ⟨b, rest⟩⟩
  · cases h
  · cases h
  · simp only [longerAreaCode] at h
    split at h
    · split at h
      · split at h
        · rename_i ds hds
          obtain ⟨d, hdmem, hdig⟩ := digitsPart_digit hds
          refine ⟨d, ?_, hdig⟩
          rw [← Option.some_inj.mp h]
          exact List.mem_cons_of_mem _ (List.mem_cons_of_mem _ hdmem)
        · cases h
      · split at h
        · rename_i ds hds
          obtain ⟨d, hdmem, hdig⟩ := digitsPart_digit hds
          refine ⟨d, ?_, hdig⟩
          rw [← Option.some_inj.mp h]
          exact List.mem_cons_of_mem _ hdmem
        · cases h
    · cases h

theorem postcodeAreas_keys_noDigit :
    (postcodeAreas.map Prod.fst).all
      (fun s => s.data.all (fun c => !(isAsciiDigit c))) = true := by
  decide

theorem postcodeAreas_values_notPostcode :
    (postcodeAreas.map Prod.snd).all (fun s => !(isUKPostcode s.data)) = true := by
  decide

/-- A longer (letters-plus-digits) code is never a key of the table:
every key is purely alphabetic. -/
theorem lookup_longerAreaCode_none {cs : List Char} {s : String}
    (h : longerAreaCode cs = some s) : postcodeAreas.lookup s = none := by
  cases hl : postcodeAreas.lookup s with
  | none => rfl
  | some v =>
      obtain ⟨d, hdmem, hdig⟩ := longerAreaCode_digit h
      have hkey : s ∈ postcodeAreas.map Prod.fst := lookup_some_key_mem hl
      have hall := postcodeAreas_keys_noDigit
      rw [List.all_eq_true] at hall
      have hs := hall s hkey
      simp only [List.all_eq_true] at hs
      have := hs d hdmem
      rw [hdig] at this
      cases this

/-- The longer-code branch of `getNearbyCityForPostcode` never fires, so
the function is exactly: area-code lookup with the
`'United Kingdom'` fallback. -/
theorem getNearbyCity_eq (cs : List Char) :
    getNearbyCityForPostcode cs =
      ((areaCode cs).bind (fun a => postcodeAreas.lookup a)).getD
        "United Kingdom" := by
  have hnone : (longerAreaCode cs).bind (fun a => postcodeAreas.lookup a) = none := by
    cases hlong : longerAreaCode cs with
    | none => rfl
    | some s => exact lookup_longerAreaCode_none hlong
  unfold getNearbyCityForPostcode
  rw [hnone]
  cases harea : (areaCode cs).bind (fun a => postcodeAreas.lookup a) with
  | some city => rfl
  | none => rfl

theorem getNearbyCity_mem (cs : List Char) :
    getNearbyCityForPostcode cs ∈ postcodeAreas.map Prod.snd ∨
      getNearbyCityForPostcode cs = "United Kingdom" := by
  rw [getNearbyCity_eq]
  cases hb : (areaCode cs).bind (fun a => postcodeAreas.lookup a) with
  | none => right; rfl
  | some city =>
      left
      obtain ⟨a, -, hl⟩ := Option.bind_eq_some.mp hb
      exact lookup_some_val_mem hl

theorem getNearbyCity_notPostcode (cs : List Char) :
    isUKPostcode (getNearbyCityForPostcode cs).data = false := by
  rcases getNearbyCity_mem cs with hmem | heq
  · have hall := postcodeAreas_values_notPostcode
    rw [List.all_eq_true] at hall
    have := hall _ hmem
    simpa using this
  · rw [heq]
    decide

/-! ## Claim C9 -/

/-- **C9.**  For every location string whose trimmed form matches the
UK postcode pattern, `cleanLocation` replaces the postcode by the city
looked up in the `postcodeAreas` table under the formatted postcode's
greedy 1–2-letter area code, falling back to `'United Kingdom'` when
the area code is not in the table (the secondary letters-plus-digits
lookup can never hit, since every table key is purely alphabetic); the
returned location is a table city or `'United Kingdom'`, and in
particular never itself a UK postcode — the providers are never queried
with a raw postcode. -/
theorem claim_C9 (cs : List Char) (h : isUKPostcode (jsTrim cs) = true) :
    ∃ city,
      cleanLocation cs = some city ∧
      city = ((areaCode (formatPostcode (jsTrim cs))).bind
        (fun a => postcodeAreas.lookup a)).getD "United Kingdom" ∧
      (city ∈ postcodeAreas.map Prod.snd ∨ city = "United Kingdom") ∧
      isUKPostcode city.data = false := by
  have hne : cs ≠ [] := by
    intro hcs
    rw [hcs] at h
    exact absurd h (by decide)
  refine ⟨getNearbyCityForPostcode (formatPostcode (jsTrim cs)), ?_, ?_, ?_, ?_⟩
  · unfold cleanLocation
    rw [if_neg hne, if_pos h]
  · exact getNearbyCity_eq _
  · exact getNearbyCity_mem _
  · exact getNearbyCity_notPostcode _

/-- **C9, witness**: the theorem at the postcode `LE1 7RH` (whose
cleaned location is the table city `Leicester`). -/
theorem claim_C9_witness :
    ∃ city,
      cleanLocation (String.data "LE1 7RH") = some city ∧
      city = ((areaCode (formatPostcode (jsTrim (String.data "LE1 7RH")))).bind
        (fun a => postcodeAreas.lookup a)).getD "United Kingdom" ∧
      (city ∈ postcodeAreas.map Prod.snd ∨ city = "United Kingdom") ∧
      isUKPostcode city.data = false :=
  claim_C9 (String.data "LE1 7RH") (by decide)

end Weather
